import Mathlib

/-!
Verification of the whale-watcher trade-monitoring pipeline (src/main.rs,
src/kalshi.rs, src/ntfy.rs) against its natural-language specification.

Modelling conventions:
* Rust `f64` quantities (prices, sizes, dollar values) are modelled as exact
  rationals (`ℚ`); every property settled here depends only on comparisons
  and arithmetic that are exact at the inputs considered, not on binary
  rounding.
* Rust strings are modelled as Lean `String` (a list of Unicode scalar
  values); Rust byte-offset slicing, which panics when an offset is not a
  UTF-8 character boundary, is modelled by `byteTake` / `byteDrop` returning
  `Option` (`none` = panic).
* Effectful code (HTTP requests) is modelled by passing the outcome of the
  external call as an explicit argument and returning a trace of the
  observable behaviour.
* `Char.toUpper` / `Char.toLower` perform ASCII case mapping; Rust performs
  full Unicode case mapping.  The strings on which case mapping matters in
  this development are ASCII.
* Rust `char::is_numeric` / `is_alphabetic` / `is_alphanumeric` are modelled
  by the ASCII classifiers `Char.isDigit` / `Char.isAlpha` /
  `Char.isAlphanum`; the inputs considered are unaffected.
-/

/-- Rust `str::to_uppercase`, ASCII case mapping per character. -/
def rustToUppercase (s : String) : String := String.mk (s.data.map Char.toUpper)

/-- Rust `str::to_lowercase`, ASCII case mapping per character. -/
def rustToLowercase (s : String) : String := String.mk (s.data.map Char.toLower)

/-- Rust `str::len` — the UTF-8 byte length of a string. -/
def rustByteLen (l : List Char) : Nat := (l.map Char.utf8Size).sum

/-- Rust byte slice `&s[..n]`: take the first `n` bytes.  Returns `none`
(modelling a panic) when `n` overruns the string or falls inside a
multi-byte character. -/
def byteTake : List Char → Nat → Option (List Char)
  | _, 0 => some []
  | [], _ + 1 => none
  | c :: cs, n + 1 =>
    if c.utf8Size ≤ n + 1 then
      match byteTake cs (n + 1 - c.utf8Size) with
      | some r => some (c :: r)
      | none => none
    else none

/-- Rust byte slice `&s[n..]`: drop the first `n` bytes.  Returns `none`
(modelling a panic) when `n` overruns the string or falls inside a
multi-byte character. -/
def byteDrop : List Char → Nat → Option (List Char)
  | l, 0 => some l
  | [], _ + 1 => none
  | c :: cs, n + 1 =>
    if c.utf8Size ≤ n + 1 then byteDrop cs (n + 1 - c.utf8Size) else none

/-- Substring test on character lists (Rust `str::contains` with a string
pattern). -/
def listContainsSub : List Char → List Char → Bool
  | [], needle => needle.isEmpty
  | c :: t, needle => needle.isPrefixOf (c :: t) || listContainsSub t needle

/-- Rust `str::contains` with a string pattern. -/
def rustContains (hay needle : String) : Bool := listContainsSub hay.data needle.data

/-- Rust `str::split(sep)` on a single-character separator: splits the list,
keeping empty pieces, so the result is always non-empty. -/
def splitOnChar (sep : Char) : List Char → List (List Char)
  | [] => [[]]
  | c :: cs =>
    if c = sep then [] :: splitOnChar sep cs
    else
      match splitOnChar sep cs with
      | [] => [[c]]
      | p :: ps => (c :: p) :: ps

/-- Rust `ticker.split('-').collect::<Vec<_>>()` as a list of strings. -/
def rustSplitDash (s : String) : List String := (splitOnChar '-' s.data).map String.mk

/-- Accumulator version of Rust `str::split_whitespace`: splits on
whitespace, discarding empty pieces. -/
def splitWsAux : List Char → List Char → List (List Char)
  | [], acc => if acc.isEmpty then [] else [acc.reverse]
  | c :: cs, acc =>
    if c.isWhitespace then
      if acc.isEmpty then splitWsAux cs [] else acc.reverse :: splitWsAux cs []
    else splitWsAux cs (c :: acc)

/-- Rust `str::split_whitespace` on a character list. -/
def splitWs (l : List Char) : List (List Char) := splitWsAux l []

/-- Rust `Vec<&str>::join(" ")` on character lists. -/
def joinSpace : List (List Char) → List Char
  | [] => []
  | [w] => w
  | w :: ws => w ++ ' ' :: joinSpace ws

/-- Embeds main.rs `escape_special_chars`, the per-character step: keep
ASCII alphanumerics, space and `, : ? .`; collapse parentheses, square
brackets and braces to `(` / `)`; turn everything else into a space. -/
def escapeChar (c : Char) : Char :=
  if ('a' ≤ c ∧ c ≤ 'z') ∨ ('A' ≤ c ∧ c ≤ 'Z') ∨ ('0' ≤ c ∧ c ≤ '9') ∨
      c = ' ' ∨ c = ',' ∨ c = ':' ∨ c = '?' ∨ c = '.' then c
  else if c = '(' ∨ c = '[' ∨ c = '\x7b' then '('
  else if c = ')' ∨ c = ']' ∨ c = '\x7d' then ')'
  else ' '

/-- Embeds main.rs `escape_special_chars` (lines 1308-1324): map each
character through `escapeChar`, then collapse whitespace runs by splitting
on whitespace and re-joining with single spaces. -/
def escape_special_chars (s : String) : String :=
  String.mk (joinSpace (splitWs (s.data.map escapeChar)))

/-- The character alphabet the sanitizer may emit: ASCII alphanumerics,
space, the punctuation allow-list and the two collapsed brackets. -/
def sanAllowed (c : Char) : Bool :=
  decide (('a' ≤ c ∧ c ≤ 'z') ∨ ('A' ≤ c ∧ c ≤ 'Z') ∨ ('0' ≤ c ∧ c ≤ '9') ∨
    c = ' ' ∨ c = ',' ∨ c = ':' ∨ c = '?' ∨ c = '.' ∨ c = '(' ∨ c = ')')

/-- No two consecutive spaces occur in the list. -/
def noDoubleSpace : List Char → Bool
  | [] => true
  | [_] => true
  | a :: b :: t => !(a == ' ' && b == ' ') && noDoubleSpace (b :: t)

example : escape_special_chars "Will *BTC* hit $100k?" = "Will BTC hit 100k?" := by decide

example : byteTake ['α', 'α', 'α'] 3 = none := by decide

/-- Wallet activity snapshot, fields as produced by the wallet tracker and
consumed throughout main.rs (the defining types.rs module is outside the
provided sources; every field and its use is visible in main.rs). -/
structure WalletActivity where
  transactions_last_hour : Nat
  transactions_last_day : Nat
  total_value_hour : ℚ
  total_value_day : ℚ
  is_repeat_actor : Bool
  is_heavy_actor : Bool
deriving DecidableEq

/-- Polymarket trade, fields as consumed by main.rs `watch_whales` and the
alert/webhook renderers (the defining polymarket.rs module is outside the
provided sources; every field used is visible in main.rs). -/
structure PTrade where
  id : String
  market : String
  asset_id : String
  side : String
  price : ℚ
  size : ℚ
  timestamp : String
  wallet_id : Option String
  market_title : Option String
  outcome : Option String
deriving DecidableEq

/-- Kalshi trade record, from kalshi.rs `struct Trade`. -/
structure KTrade where
  trade_id : String
  ticker : String
  price : ℚ
  count : Int
  yes_price : ℚ
  no_price : ℚ
  taker_side : String
  created_time : String
  market_title : Option String
deriving DecidableEq

/-- One tag per `anomalies.push` site of main.rs `detect_anomalies`
(lines 1227-1304), in source order. -/
inductive Anomaly
  | heavyActor
  | repeatActor
  | coordinatedVolume
  | extremeConfidence
  | contrarianPosition
  | oversizedPosition
  | majorCapitalDeployment
  | highConvictionLikely
  | asymmetricInfoHedge
deriving DecidableEq

/-- Embeds main.rs `detect_anomalies` (lines 1227-1304): the list of anomaly
indicators pushed, in source order.  Note the price rules: extreme
confidence and contrarian position are an if/else-if pair. -/
def detect_anomalies (price size value : ℚ) (wallet_activity : Option WalletActivity) :
    List Anomaly :=
  (match wallet_activity with
   | none => []
   | some activity =>
     (if activity.is_heavy_actor then [Anomaly.heavyActor] else []) ++
     (if activity.is_repeat_actor ∧ ¬activity.is_heavy_actor then [Anomaly.repeatActor] else []) ++
     (if activity.total_value_hour > 200000 then [Anomaly.coordinatedVolume] else [])) ++
  (if price > 95/100 then [Anomaly.extremeConfidence]
   else if price < 5/100 then [Anomaly.contrarianPosition] else []) ++
  (if size > 100000 then [Anomaly.oversizedPosition] else []) ++
  (if value > 100000 then [Anomaly.majorCapitalDeployment] else []) ++
  (if price > 90/100 ∧ size > 50000 then [Anomaly.highConvictionLikely] else []) ++
  (if price < 20/100 ∧ value > 50000 then [Anomaly.asymmetricInfoHedge] else [])

/-- Anomaly call of main.rs `print_whale_alert` (line 748): Polymarket
alerts classify with the trade's own price and size. -/
def pm_alert_anomalies (t : PTrade) (value : ℚ) (wallet_activity : Option WalletActivity) :
    List Anomaly :=
  detect_anomalies t.price t.size value wallet_activity

/-- Anomaly call of main.rs `print_kalshi_alert` (lines 833-835): Kalshi
alerts classify with `avg_price / 100` where
`avg_price = (yes_price + no_price) / 2`, and no wallet context. -/
def kalshi_alert_anomalies (t : KTrade) (value : ℚ) : List Anomaly :=
  detect_anomalies (((t.yes_price + t.no_price) / 2) / 100) (t.count : ℚ) value none

/-- Dedup scan of the Polymarket branch of `watch_whales` (main.rs lines
462-468): iterate the batch in fetch order (newest first) and stop at the
first trade whose id equals the cursor; with no cursor the whole batch is
scanned. -/
def pm_unseen (cursor : Option String) (batch : List PTrade) : List PTrade :=
  batch.takeWhile fun t =>
    match cursor with
    | some last_id => t.id != last_id
    | none => true

/-- Threshold filter of the Polymarket branch (main.rs lines 470-471):
`trade_value = size * price` and alert when `trade_value >= threshold`.
The alerted trades keep the scan order. -/
def pm_alerts (threshold : ℚ) (cursor : Option String) (batch : List PTrade) : List PTrade :=
  (pm_unseen cursor batch).filter fun t => decide (threshold ≤ t.size * t.price)

/-- Cursor update of the Polymarket branch (main.rs lines 459-460, 528):
for a non-empty batch the cursor becomes the first (newest) trade's id,
assigned after the scan; an empty batch leaves it unchanged. -/
def pm_new_cursor (cursor : Option String) (batch : List PTrade) : Option String :=
  match batch with
  | [] => cursor
  | first_trade :: _ => some first_trade.id

/-- One Polymarket poll tick (main.rs lines 456-529): the alerted trades in
processing order, and the cursor after the tick. -/
def pm_tick (threshold : ℚ) (cursor : Option String) (batch : List PTrade) :
    List PTrade × Option String :=
  (pm_alerts threshold cursor batch, pm_new_cursor cursor batch)

/-- Dedup scan of the Kalshi branch of `watch_whales` (main.rs lines
543-549), same shape as the Polymarket branch over `trade_id`. -/
def k_unseen (cursor : Option String) (batch : List KTrade) : List KTrade :=
  batch.takeWhile fun t =>
    match cursor with
    | some last_id => t.trade_id != last_id
    | none => true

/-- Kalshi trade value (main.rs line 552): prices are cents, so
`(yes_price / 100) * count`. -/
def k_value (t : KTrade) : ℚ := (t.yes_price / 100) * (t.count : ℚ)

/-- Threshold filter of the Kalshi branch (main.rs lines 552-553). -/
def k_alerts (threshold : ℚ) (cursor : Option String) (batch : List KTrade) : List KTrade :=
  (k_unseen cursor batch).filter fun t => decide (threshold ≤ k_value t)

/-- Cursor update of the Kalshi branch (main.rs lines 540-541, 602). -/
def k_new_cursor (cursor : Option String) (batch : List KTrade) : Option String :=
  match batch with
  | [] => cursor
  | first_trade :: _ => some first_trade.trade_id

/-- One Kalshi poll tick (main.rs lines 537-603). -/
def k_tick (threshold : ℚ) (cursor : Option String) (batch : List KTrade) :
    List KTrade × Option String :=
  (k_alerts threshold cursor batch, k_new_cursor cursor batch)

/-- Outcome of the single HTTP POST issued by the generic-webhook
dispatcher: a response with a status code, or a transport error. -/
inductive SendOutcome
  | ok (status : Nat)
  | err
deriving DecidableEq

/-- Observable delivery behaviour of one dispatcher invocation: how many
JSON POSTs were issued, how many URL-encoded-form fallback POSTs were
issued, and whether a failure was logged. -/
structure DeliveryTrace where
  posts : Nat
  formFallbackPosts : Nat
  loggedFailure : Bool
deriving DecidableEq

/-- Rust `reqwest::StatusCode::is_success`: a 2xx status. -/
def httpIsSuccess (status : Nat) : Bool := decide (200 ≤ status ∧ status < 300)

/-- Embeds the delivery control flow of main.rs `send_generic_webhook_alert`
(lines 1148-1170): exactly one JSON POST is issued; a non-2xx status or a
transport error is only logged; the function returns without retrying and
without any fallback request, and never propagates an error. -/
def send_generic_webhook_alert (outcome : SendOutcome) : DeliveryTrace :=
  match outcome with
  | .ok status => { posts := 1, formFallbackPosts := 0, loggedFailure := !httpIsSuccess status }
  | .err => { posts := 1, formFallbackPosts := 0, loggedFailure := true }

/-- The `market_title` field main.rs `send_generic_webhook_alert` places in
the webhook JSON payload (line 1128): the title passed through the
sanitizer. -/
def webhook_market_title_field (market_title : Option String) : Option String :=
  market_title.map escape_special_chars

/-- The `outcome` field of the webhook JSON payload (main.rs line 1129). -/
def webhook_outcome_field (outcome : Option String) : Option String :=
  outcome.map escape_special_chars

/-- The Market line of the ntfy message body (ntfy.rs line 121): the raw
market title is embedded without sanitization. -/
def ntfy_market_line (market_title : Option String) : String :=
  "Market: " ++ market_title.getD "Unknown"

/-- The Action line of the ntfy message body (ntfy.rs lines 123-127): the
raw outcome label is embedded without sanitization. -/
def ntfy_action_line (side : String) (outcome : Option String) : String :=
  match outcome with
  | some outcome_str => "Action: " ++ rustToUppercase side ++ " " ++ outcome_str
  | none => "Action: " ++ rustToUppercase side

/-- Error type of kalshi.rs `fetch_recent_trades`; the parse-error variant
carries the offending HTTP status (in the source, formatted into a
message string). -/
inductive KalshiError
  | requestFailed
  | parseErrorStatus (status : Nat)
deriving DecidableEq

/-- Environment input to kalshi.rs `fetch_recent_trades`: a transport
error from `send`/`text`, or a response with a status code and the result
of decoding the body as a `TradesResponse` trade list. -/
inductive KalshiHttp
  | transportErr
  | response (status : Nat) (decoded : Option (List KTrade))

/-- Embeds kalshi.rs `fetch_recent_trades` (lines 66-85): transport errors
propagate as `RequestFailed`; a non-success status returns a
`ParseError`; a success status whose body fails to decode is only logged
and yields `Ok` with an empty list. -/
def kalshi_fetch_recent_trades (r : KalshiHttp) : Except KalshiError (List KTrade) :=
  match r with
  | .transportErr => .error .requestFailed
  | .response status decoded =>
    if !httpIsSuccess status then .error (.parseErrorStatus status)
    else
      match decoded with
      | some trades => .ok trades
      | none => .ok []
/-- Embeds kalshi.rs get_team_emoji: maps a team/asset code and an optional sport hint to an emoji string. -/
def get_team_emoji (team_code : String) (sport_hint : Option String) : String :=
  let code_upper := rustToUppercase team_code
  let sport := rustToLowercase (sport_hint.getD "")
  match sport with
  | "nfl" | "american football" | "football" =>
    (match code_upper with
     | "BUF" | "BUFFALO" => "üèàü¶¨"
     | "MIA" | "MIAMI" => "üèàüê¨"
     | "NE" | "NWE" | "NEWENGLAND" | "NEW ENGLAND" => "üèàüá∫üá∏"
     | "NYJ" | "JETS" => "üèà‚úàÔ∏è"
     | "BAL" | "RAVENS" => "üèàüê¶‚Äç‚¨õ"
     | "CIN" | "BENGALS" => "üèàüêÖ"
     | "CLE" | "BROWNS" => "üèàüêï"
     | "PIT" | "STEELERS" => "üèà‚ö´üü°"
     | "HOU" | "TEXANS" => "üèàü§†"
     | "IND" | "COLTS" => "üèàüêé"
     | "JAX" | "JAGUARS" => "üèàüêÜ"
     | "TEN" | "TITANS" => "üèàüî±"
     | "DEN" | "BRONCOS" => "üèàüê¥"
     | "KC" | "CHIEFS" => "üèàüèπ"
     | "LV" | "RAIDERS" => "üèàüè¥‚Äç‚ò†Ô∏è"
     | "LAC" | "CHARGERS" => "üèà‚ö°"
     | "DAL" | "COWBOYS" => "üèà‚≠ê"
     | "NYG" | "GIANTS" => "üèàüë®‚Äçüë¶"
     | "PHI" | "EAGLES" => "üèàü¶Ö"
     | "WAS" | "COMMANDERS" => "üèàüëë"
     | "CHI" | "BEARS" => "üèàüêª"
     | "DET" | "LIONS" => "üèàü¶Å"
     | "GB" | "PACKERS" => "üèàüßÄ"
     | "MIN" | "VIKINGS" => "üèà‚õµ"
     | "ATL" | "FALCONS" => "üèàü¶Ö"
     | "CAR" | "PANTHERS" => "üèàüêÜ"
     | "NO" | "SAINTS" => "üèà‚õ™"
     | "TB" | "BUCCANEERS" => "üèàüè¥‚Äç‚ò†Ô∏è"
     | "ARI" | "CARDINALS" => "üèàüê¶"
     | "LAR" | "RAMS" => "üèàüêè"
     | "SF" | "49ERS" => "üèà‚õèÔ∏è"
     | "SEA" | "SEAHAWKS" => "üèàü¶Ö"
     | _ => "üèà")
  | "nba" | "basketball" =>
    (match code_upper with
     | "ATL" | "HAWKS" => "üèÄü¶Ö"
     | "BOS" | "CELTICS" => "üèÄ‚òòÔ∏è"
     | "BKN" | "NETS" => "üèÄüåâ"
     | "CHA" | "HORNETS" => "üèÄüêù"
     | "CHI" | "BULLS" => "üèÄüêÇ"
     | "CLE" | "CAVS" | "CAVALIERS" => "üèÄ‚öîÔ∏è"
     | "DAL" | "MAVS" | "MAVERICKS" => "üèÄüê¥"
     | "DEN" | "NUGGETS" => "üèÄ‚õèÔ∏è"
     | "DET" | "PISTONS" => "üèÄüî©"
     | "GSW" | "WARRIORS" => "üèÄüåâ"
     | "HOU" | "ROCKETS" => "üèÄüöÄ"
     | "IND" | "PACERS" => "üèÄüèéÔ∏è"
     | "LAC" | "CLIPPERS" => "üèÄ‚öì"
     | "LAL" | "LAKERS" => "üèÄüíúüíõ"
     | "MEM" | "GRIZZLIES" => "üèÄüêª"
     | "MIA" | "HEAT" => "üèÄüî•"
     | "MIL" | "BUCKS" => "üèÄü¶å"
     | "MIN" | "WOLVES" | "TIMBERWOLVES" => "üèÄüê∫"
     | "NOP" | "PELICANS" => "üèÄüê¶"
     | "NYK" | "KNICKS" => "üèÄüóΩ"
     | "OKC" | "THUNDER" => "üèÄ‚ö°"
     | "ORL" | "MAGIC" => "üèÄü™Ñ"
     | "PHI" | "76ERS" => "üèÄ‚≠ê"
     | "PHX" | "SUNS" => "üèÄ‚òÄÔ∏è"
     | "POR" | "BLAZERS" => "üèÄüå≤"
     | "SAC" | "KINGS" => "üèÄüëë"
     | "SAS" | "SPURS" => "üèÄüåµ"
     | "TOR" | "RAPTORS" => "üèÄü¶ñ"
     | "UTA" | "JAZZ" => "üèÄüé∑"
     | "WAS" | "WIZARDS" => "üèÄüßô‚Äç‚ôÇÔ∏è"
     | _ => "üèÄ")
  | "nhl" | "hockey" =>
    (match code_upper with
     | "ANA" | "DUCKS" => "üèíü¶Ü"
     | "ARI" | "YOTES" | "COYOTES" => "üèíüê∫"
     | "BOS" | "BRUINS" => "üèíüêª"
     | "BUF" | "SABRES" => "üèí‚öîÔ∏è"
     | "CGY" | "FLAMES" => "üèíüî•"
     | "CAR" | "CANES" | "HURRICANES" => "üèíüåÄ"
     | "CHI" | "HAWKS" | "BLACKHAWKS" => "üèíü¶Ö"
     | "COL" | "AVS" | "AVALANCHE" => "üèíüèîÔ∏è"
     | "CBJ" | "JACKETS" | "BLUEJACKETS" => "üèí‚öì"
     | "DAL" | "STARS" => "üèí‚≠ê"
     | "DET" | "WINGS" | "REDWINGS" => "üèí‚úàÔ∏è"
     | "EDM" | "OILERS" => "üèíüõ¢Ô∏è"
     | "FLA" | "PANTHERS" => "üèíüêÜ"
     | "LAK" | "KINGS" => "üèíüëë"
     | "MIN" | "WILD" => "üèíüå≤"
     | "MTL" | "CANADIENS" => "üèíüçÅ"
     | "NSH" | "PREDS" | "PREDATORS" => "üèíüêÖ"
     | "NJD" | "DEVILS" => "üèíüòà"
     | "NYI" | "ISLANDERS" => "üèíüèùÔ∏è"
     | "NYR" | "RANGERS" => "üèíüóΩ"
     | "OTT" | "SENATORS" => "üèí‚öñÔ∏è"
     | "PHI" | "FLYERS" => "üèí‚úàÔ∏è"
     | "PIT" | "PENS" | "PENGUINS" => "üèíüêß"
     | "SJS" | "SHARKS" => "üèíü¶à"
     | "SEA" | "KRAKEN" => "üèíüêô"
     | "STL" | "BLUES" => "üèíüéµ"
     | "TBL" | "LIGHTNING" => "üèí‚ö°"
     | "TOR" | "LEAFS" | "MAPLELEAFS" => "üèíüçÅ"
     | "VAN" | "CANUCKS" => "üèíüêã"
     | "VGK" | "KNIGHTS" | "GOLDENKNIGHTS" => "üèí‚ôüÔ∏è"
     | "WSH" | "CAPS" | "CAPITALS" => "üèíüèõÔ∏è"
     | "WPG" | "JETS" => "üèí‚úàÔ∏è"
     | _ => "üèí")
  | "mlb" | "baseball" =>
    (match code_upper with
     | "ARI" | "DBACKS" | "DIAMONDBACKS" => "‚öæüêç"
     | "ATL" | "BRAVES" => "‚öæü™ì"
     | "BAL" | "ORIOLES" => "‚öæüê¶"
     | "BOS" | "REDSOX" => "‚öæüü•üß¶"
     | "CHC" | "CUBS" => "‚öæüêª"
     | "CHW" | "WHITESOX" => "‚öæüü•‚öæ"
     | "CIN" | "REDS" => "‚öæüî¥"
     | "CLE" | "GUARDIANS" => "‚öæüëÅÔ∏è"
     | "COL" | "ROCKIES" => "‚öæüèîÔ∏è"
     | "DET" | "TIGERS" => "‚öæüêÖ"
     | "HOU" | "ASTROS" => "‚öæüß°"
     | "KC" | "ROYALS" => "‚öæüëë"
     | "LAA" | "ANGELS" => "‚öæüëº"
     | "LAD" | "DODGERS" => "‚öæüîµ"
     | "MIA" | "MARLINS" => "‚öæüêü"
     | "MIL" | "BREWERS" => "‚öæüç∫"
     | "MIN" | "TWINS" => "‚öæüë•"
     | "NYM" | "METS" => "‚öæüåé"
     | "NYY" | "YANKEES" => "‚öæüóΩ"
     | "OAK" | "ATHLETICS" => "‚öæüêò"
     | "PHI" | "PHILLIES" => "‚öæüîî"
     | "PIT" | "PIRATES" => "‚öæüè¥‚Äç‚ò†Ô∏è"
     | "SD" | "PADRES" => "‚öæüßî"
     | "SEA" | "MARINERS" => "‚öæ‚öì"
     | "SF" | "GIANTS" => "‚öæüåâ"
     | "STL" | "CARDINALS" => "‚öæüê¶"
     | "TB" | "RAYS" => "‚öæüåû"
     | "TEX" | "RANGERS" => "‚öæü§†"
     | "TOR" | "BLUEJAYS" => "‚öæüê¶"
     | "WSH" | "NATIONALS" => "‚öæüá∫üá∏"
     | _ => "‚öæ")
  | "soccer" =>
    (match code_upper with
     | "MCI" | "MANCITY" => "‚öΩüîµ"
     | "LIV" | "LIVERPOOL" => "‚öΩüî¥"
     | "MUN" | "MANUTD" => "‚öΩüëπ"
     | "ARS" | "ARSENAL" => "‚öΩüî¥‚ö™"
     | "CHE" | "CHELSEA" => "‚öΩüîµ"
     | "TOT" | "TOTTENHAM" => "‚öΩ‚ö™üîµ"
     | "RM" | "REALMADRID" => "‚öΩüëë"
     | "BAR" | "BARCELONA" => "‚öΩüîµüî¥"
     | "BAY" | "BAYERN" => "‚öΩüî¥"
     | "PSG" => "‚öΩüîµüî¥"
     | "JUV" | "JUVENTUS" => "‚öΩ‚ö´‚ö™"
     | "ACM" | "ACMILAN" => "‚öΩüî¥‚ö´"
     | "INT" | "INTER" => "‚öΩüîµ‚ö´"
     | _ => "‚öΩ")
  | "college" | "ncaa" | "cfb" | "cbb" =>
    (match code_upper with
     | "ALA" | "ALABAMA" => "üêòüéì"
     | "CLEM" | "CLEMSON" => "üêÖüéì"
     | "UGA" | "GEORGIA" => "üêïüéì"
     | "LSU" => "üêÖüéì"
     | "MICH" | "MICHIGAN" => "„ÄΩÔ∏èüéì"
     | "OSU" | "OHIOSTATE" => "üÖæÔ∏èüéì"
     | "OKLA" | "OKLAHOMA" => "‚≠ïüéì"
     | "ORE" | "OREGON" => "ü¶Üüéì"
     | "TEXAS" => "ü§òüéì"
     | "USC" => "‚úåÔ∏èüéì"
     | _ => "üéì")
  | _ =>
    (match code_upper with
     | "BTC" | "BITCOIN" => "‚Çø"
     | "ETH" | "ETHEREUM" => "Œû"
     | "SOL" | "SOLANA" => "üîÜ"
     | "SPX" | "SP500" => "üìàüá∫üá∏"
     | "TSLA" => "üöó"
     | "AAPL" => "üçé"
     | "GOOGL" | "GOOG" => "üîç"
     | "META" => "üì±"
     | "AMZN" => "üì¶"
     | "MSFT" => "ü™ü"
     | "NVDA" => "üéÆ"
     | "BRK" => "üßì"
     | "DEM" | "DEMOCRAT" => "üê¥"
     | "GOP" | "REPUBLICAN" => "üêò"
     | "BIDEN" => "üë¥üá∫üá∏"
     | "TRUMP" => "ü¶Öüá∫üá∏"
     | "HARRIS" => "üë©üèæ‚Äçüíºüá∫üá∏"
     | "DESANTIS" => "ü¶©"
     | "HALEY" => "üë©üèº‚Äçüíºüá∫üá∏"
     | _ => "üèÜ")

/-- Embeds kalshi.rs get_sport_emoji: maps a sport name to an emoji string. -/
def get_sport_emoji (sport : String) : String :=
  match rustToLowercase sport with
  | "nfl" | "american football" | "football" => "üèà"
  | "nba" | "basketball" => "üèÄ"
  | "nhl" | "hockey" => "üèí"
  | "mlb" | "baseball" => "‚öæ"
  | "soccer" => "‚öΩ"
  | "cfb" | "ncaaf" | "college football" => "üéìüèà"
  | "cbb" | "ncaab" | "college basketball" => "üéìüèÄ"
  | "golf" => "‚õ≥"
  | "tennis" => "üéæ"
  | "mma" | "ufc" => "ü•ä"
  | "boxing" => "ü•ä"
  | "racing" | "f1" => "üèéÔ∏è"
  | "olympics" => "üèÖ"
  | "esports" | "gaming" => "üéÆ"
  | "crypto" | "cryptocurrency" => "‚Çø"
  | "stocks" | "stock market" => "üìà"
  | "politics" | "election" => "üó≥Ô∏è"
  | "weather" | "temperature" => "üå°Ô∏è"
  | "entertainment" => "üé≠"
  | "economics" => "üíπ"
  | "technology" => "üíª"
  | "science" => "üî¨"
  | "health" => "üè•"
  | "food" => "üçî"
  | "travel" => "‚úàÔ∏è"
  | "music" => "üéµ"
  | "movies" => "üé¨"
  | _ => "üéØ"

/-- Embeds kalshi.rs get_side_emoji: maps a trade side to an emoji string. -/
def get_side_emoji (side : String) : String :=
  match rustToUppercase side with
  | "YES" | "BUY" => "üü¢üìà"
  | "NO" | "SELL" => "üî¥üìâ"
  | "BID" => "‚¨ÜÔ∏è"
  | "ASK" => "‚¨áÔ∏è"
  | _ => "‚û°Ô∏è"

/-- Crypto/stock threshold branch of kalshi.rs parse_ticker_details (lines
389-445).  Result: `none` = fall through, `some none` = panic, `some (some s)`
= early return of `s`. -/
def ptd_crypto (ticker side_emoji betting_side : String) : Option (Option String) :=
  if rustContains ticker "ETH" || rustContains ticker "BTC" || rustContains ticker "SOL" ||
      rustContains ticker "SPX" || rustContains ticker "TSLA" || rustContains ticker "AAPL" ||
      rustContains ticker "GOOGL" || rustContains ticker "META" || rustContains ticker "AMZN" ||
      rustContains ticker "MSFT" || rustContains ticker "NVDA" || rustContains ticker "BRK" then
    let parts := rustSplitDash ticker
    match parts.getLast? with
    | some threshold_part =>
      if threshold_part.data.head? = some 'T' ∨ threshold_part.data.head? = some 't' then
        match byteDrop threshold_part.data 1 with
        | none => some none
        | some price =>
          let ap :=
            if rustContains ticker "ETH" then ("Ethereum (ETH)", "Œû")
            else if rustContains ticker "BTC" then ("Bitcoin (BTC)", "‚Çø")
            else if rustContains ticker "SOL" then ("Solana (SOL)", "üîÜ")
            else if rustContains ticker "SPX" then ("S&P 500", "üìàüá∫üá∏")
            else if rustContains ticker "TSLA" then ("Tesla", "üöó")
            else if rustContains ticker "AAPL" then ("Apple", "üçé")
            else if rustContains ticker "GOOGL" || rustContains ticker "GOOG" then ("Google", "üîç")
            else if rustContains ticker "META" then ("Meta", "üì±")
            else if rustContains ticker "AMZN" then ("Amazon", "üì¶")
            else if rustContains ticker "MSFT" then ("Microsoft", "ü™ü")
            else if rustContains ticker "NVDA" then ("NVIDIA", "üéÆ")
            else if rustContains ticker "BRK" then ("Berkshire Hathaway", "üßì")
            else ("Asset", "üíπ")
          some (some (ap.2 ++ " " ++ side_emoji ++ " " ++ ap.1 ++ " " ++
            (if betting_side = "YES" then "‚â• $" else "< $") ++
            " at expiry " ++ String.mk price))
      else none
    | none => none
  else none

/-- Sports-total branch of parse_ticker_details (lines 447-506). -/
def ptd_total (ticker side_emoji betting_side : String) : Option (Option String) :=
  if rustContains ticker "TOTAL" then
    let parts := rustSplitDash ticker
    match parts.getLast? with
    | some threshold =>
      if threshold.data.all Char.isDigit then
        let sp :=
          if rustContains ticker "NFL" then ("NFL", "üèà")
          else if rustContains ticker "NBA" then ("NBA", "üèÄ")
          else if rustContains ticker "NHL" then ("NHL", "üèí")
          else if rustContains ticker "MLB" then ("MLB", "‚öæ")
          else if rustContains ticker "NCAAF" || rustContains ticker "CFB" then ("College Football", "üéìüèà")
          else if rustContains ticker "NCAAB" || rustContains ticker "CBB" then ("College Basketball", "üéìüèÄ")
          else if rustContains ticker "SOCCER" then ("Soccer", "‚öΩ")
          else ("Game", "üéØ")
        let ou := if betting_side = "YES" then "OVER" else "UNDER"
        let generic : Option (Option String) :=
          some (some (sp.2 ++ " Total " ++ side_emoji ++ " " ++ ou ++ " " ++ threshold ++
            " (" ++ sp.1 ++ ")"))
        if parts.length ≥ 3 then
          match parts.get? (parts.length - 2) with
          | some teams_part =>
            if rustByteLen teams_part.data ≥ 6 then
              match byteDrop teams_part.data (rustByteLen teams_part.data - 6) with
              | none => some none
              | some team_codes =>
              match byteTake team_codes 3 with
              | none => some none
              | some away =>
              match byteDrop team_codes 3 with
              | none => some none
              | some home =>
              let away_emoji := get_team_emoji (String.mk away) (some (rustToLowercase sp.1))
              let home_emoji := get_team_emoji (String.mk home) (some (rustToLowercase sp.1))
              some (some (sp.2 ++ " Total " ++ side_emoji ++ " " ++ ou ++ " " ++ threshold ++
                " | " ++ away_emoji ++ " " ++ rustToUppercase (String.mk away) ++ " @ " ++
                home_emoji ++ " " ++ rustToUppercase (String.mk home) ++ " (" ++ sp.1 ++ ")"))
            else generic
          | none => generic
        else generic
      else none
    | none => none
  else none
/-- Sports head-to-head game branch of parse_ticker_details (lines 508-592). -/
def ptd_game (ticker side_emoji betting_side : String) : Option (Option String) :=
  let parts := rustSplitDash ticker
  if parts.length ≥ 3 then
    let outcome := parts.getLast?.getD ""
    match parts.get? (parts.length - 2) with
    | some teams_part =>
      if rustByteLen teams_part.data ≥ 6 then
        match byteDrop teams_part.data (rustByteLen teams_part.data - 6) with
        | none => some none
        | some team_codes =>
        match byteTake team_codes 3 with
        | none => some none
        | some awayL =>
        match byteDrop team_codes 3 with
        | none => some none
        | some homeL =>
        let away := String.mk awayL
        let home := String.mk homeL
        let sp :=
          if rustContains ticker "NHL" then ("NHL", "üèí")
          else if rustContains ticker "NFL" then ("NFL", "üèà")
          else if rustContains ticker "NBA" then ("NBA", "üèÄ")
          else if rustContains ticker "MLB" then ("MLB", "‚öæ")
          else if rustContains ticker "SOCCER" then ("Soccer", "‚öΩ")
          else ("Sports", "üéØ")
        if betting_side = "YES" then
          let outcome_emoji := get_team_emoji outcome (some (rustToLowercase sp.1))
          let opponent :=
            if rustToUppercase outcome = rustToUppercase away then rustToUppercase home
            else rustToUppercase away
          let opponent_emoji :=
            if rustToUppercase outcome = rustToUppercase away then
              get_team_emoji home (some (rustToLowercase sp.1))
            else get_team_emoji away (some (rustToLowercase sp.1))
          some (some (sp.2 ++ " " ++ side_emoji ++ " " ++ outcome_emoji ++ " " ++
            rustToUppercase outcome ++ " wins vs " ++ opponent_emoji ++ " " ++ opponent ++
            " (" ++ sp.1 ++ ")"))
        else
          let other_team :=
            if rustToUppercase outcome = rustToUppercase away then rustToUppercase home
            else rustToUppercase away
          let other_team_emoji :=
            if rustToUppercase outcome = rustToUppercase away then
              get_team_emoji home (some (rustToLowercase sp.1))
            else get_team_emoji away (some (rustToLowercase sp.1))
          let outcome_emoji := get_team_emoji outcome (some (rustToLowercase sp.1))
          some (some (sp.2 ++ " " ++ side_emoji ++ " " ++ other_team_emoji ++ " " ++
            other_team ++ " wins vs " ++ outcome_emoji ++ " " ++ rustToUppercase outcome ++
            " (" ++ sp.1 ++ ")"))
      else none
    | none => none
  else none

/-- Point-spread branch of parse_ticker_details (lines 594-640). -/
def ptd_spread (ticker side_emoji betting_side : String) : Option (Option String) :=
  let parts := rustSplitDash ticker
  match parts.getLast? with
  | some last_part =>
    let team := String.mk (last_part.data.takeWhile Char.isAlpha)
    let spread_str := String.mk ((last_part.data.dropWhile Char.isAlpha).filter
      (fun c => c.isDigit || c == '.' || c == '-'))
    if team ≠ "" ∧ spread_str ≠ "" then
      let sport :=
        if rustContains ticker "NFL" then "nfl"
        else if rustContains ticker "NBA" then "nba"
        else if rustContains ticker "NHL" then "nhl"
        else if rustContains ticker "MLB" then "mlb"
        else if rustContains ticker "NCAAF" || rustContains ticker "CFB" then "college football"
        else "sports"
      let team_emoji := get_team_emoji team (some sport)
      let sport_emoji := get_sport_emoji sport
      let spread_value := String.mk (spread_str.data.dropWhile (fun c => c == '-'))
      if betting_side = "YES" then
        some (some (sport_emoji ++ " " ++ side_emoji ++ " " ++ team_emoji ++ " " ++
          rustToUppercase team ++ " wins by " ++ spread_value ++ " or more (covers spread)"))
      else
        some (some (sport_emoji ++ " " ++ side_emoji ++ " " ++ team_emoji ++ " " ++
          rustToUppercase team ++ " loses or wins by less than " ++ spread_value ++
          " (doesn\x27t cover spread)"))
    else none
  | none => none

/-- Player-prop branch of parse_ticker_details (lines 642-670). -/
def ptd_points (ticker side_emoji betting_side : String) : Option (Option String) :=
  let parts := rustSplitDash ticker
  match parts.getLast? with
  | some threshold =>
    if threshold.data.all Char.isDigit then
      let prop_type :=
        if rustContains ticker "TD" then "touchdowns üèà"
        else if rustContains ticker "POINTS" then "points üèÄ"
        else "goals/scores"
      let sport_emoji := get_sport_emoji
        (if rustContains ticker "NFL" then "nfl"
         else if rustContains ticker "NBA" then "nba"
         else if rustContains ticker "NHL" then "nhl"
         else if rustContains ticker "SOCCER" then "soccer"
         else "sports")
      some (some (sport_emoji ++ " " ++ side_emoji ++ " Player gets " ++
        (if betting_side = "YES" then "‚â•" else "<") ++ " " ++
        threshold ++ " " ++ prop_type))
    else none
  | none => none

/-- Temperature branch of parse_ticker_details (lines 671-699). -/
def ptd_temp (ticker side_emoji betting_side : String) : Option (Option String) :=
  if rustContains ticker "T" then
    let parts := rustSplitDash ticker
    match parts.getLast? with
    | some threshold_part =>
      match threshold_part.data with
      | 'T' :: rest =>
        let temp := String.mk rest
        let metric := if rustContains ticker "HIGH" then "High üå°Ô∏è" else "Low üå°Ô∏è"
        let location_emoji :=
          if rustContains ticker "NY" then "üóΩ"
          else if rustContains ticker "LA" || rustContains ticker "CAL" then "üå¥"
          else if rustContains ticker "CHI" then "üå¨Ô∏è"
          else if rustContains ticker "MIA" then "‚òÄÔ∏è"
          else if rustContains ticker "SEA" then "‚òî"
          else "üìç"
        some (some (location_emoji ++ " " ++ side_emoji ++ " " ++ metric ++ " temp " ++
          (if betting_side = "YES" then "‚â•" else "<") ++ " " ++
          temp ++ "¬∞F"))
      | _ => none
    | none => none
  else none
/-- Election branch of parse_ticker_details (lines 700-711). -/
def ptd_election (ticker side_emoji betting_side : String) : Option (Option String) :=
  let parts := rustSplitDash ticker
  match parts.getLast? with
  | some outcome =>
    let outcome_emoji := get_team_emoji outcome (some "politics")
    if betting_side = "YES" then
      some (some ("üó≥Ô∏è " ++ side_emoji ++ " " ++ outcome_emoji ++ " " ++
        rustToUppercase outcome ++ " wins election"))
    else
      some (some ("üó≥Ô∏è " ++ side_emoji ++ " " ++ outcome_emoji ++ " " ++
        rustToUppercase outcome ++ " doesn\x27t win election"))
  | none => none

/-- The else-if chain of parse_ticker_details (lines 508-711): game, spread,
player-prop, temperature and election branches; when the guard of one arm
holds but its body returns nothing, the remaining arms are skipped. -/
def ptd_chain (ticker side_emoji betting_side : String) : Option (Option String) :=
  if rustContains ticker "NHLGAME" || rustContains ticker "NFLGAME" ||
      rustContains ticker "NBAGAME" || rustContains ticker "MLBGAME" ||
      rustContains ticker "SOCCERGAME" then
    ptd_game ticker side_emoji betting_side
  else if rustContains ticker "SPREAD" then
    ptd_spread ticker side_emoji betting_side
  else if rustContains ticker "TD" || rustContains ticker "SCORE" ||
      rustContains ticker "POINTS" then
    ptd_points ticker side_emoji betting_side
  else if rustContains ticker "HIGH" || rustContains ticker "LOW" then
    ptd_temp ticker side_emoji betting_side
  else if rustContains ticker "PRES" || rustContains ticker "SENATE" ||
      rustContains ticker "HOUSE" then
    ptd_election ticker side_emoji betting_side
  else none

/-- Combo/parlay branch of parse_ticker_details (lines 714-724). -/
def ptd_combo (ticker side_emoji betting_side : String) : Option (Option String) :=
  if rustContains ticker "COMBO" || rustContains ticker "PARLAY" ||
      rustContains ticker "MULTI" then
    match (rustSplitDash ticker).getLast? with
    | some last =>
      some (some ("üé∞ " ++ side_emoji ++ " " ++
        (if betting_side = "YES" then "Wins" else "Loses") ++ " " ++
        rustToUppercase last ++ " combo/parlay"))
    | none => none
  else none

/-- First/last/anytime-scorer branch of parse_ticker_details (lines 727-743). -/
def ptd_timing (ticker side_emoji betting_side : String) : Option (Option String) :=
  if rustContains ticker "FIRST" || rustContains ticker "LAST" ||
      rustContains ticker "ANYTIME" then
    let timing :=
      if rustContains ticker "FIRST" then "first ü•á"
      else if rustContains ticker "LAST" then "last üèÅ"
      else "anytime ‚è±Ô∏è"
    match (rustSplitDash ticker).getLast? with
    | some player =>
      if betting_side = "YES" then
        some (some (get_sport_emoji "nfl" ++ " " ++ side_emoji ++ " " ++
          rustToUppercase player ++ " scores " ++ timing ++ " TD"))
      else
        some (some (get_sport_emoji "nfl" ++ " " ++ side_emoji ++ " " ++
          rustToUppercase player ++ " doesn\x27t score " ++ timing ++ " TD"))
    | none => none
  else none

/-- Ranking/placement branch of parse_ticker_details (lines 746-764). -/
def ptd_rank (ticker side_emoji betting_side : String) : Option (Option String) :=
  if rustContains ticker "TOP" || rustContains ticker "FINISH" ||
      rustContains ticker "PLACE" then
    match (rustSplitDash ticker).getLast? with
    | some outcome =>
      let sport_emoji := get_sport_emoji
        (if rustContains ticker "GOLF" then "golf"
         else if rustContains ticker "RACING" then "racing"
         else if rustContains ticker "OLYMPICS" then "olympics"
         else "sports")
      some (some (sport_emoji ++ " " ++ side_emoji ++ " " ++ rustToUppercase outcome ++ " " ++
        (if betting_side = "YES" then "finishes in position üèÖ" else "doesn\x27t finish in position ‚ùå")))
    | none => none
  else none

/-- Entertainment-award branch of parse_ticker_details (lines 767-784). -/
def ptd_award (ticker side_emoji betting_side : String) : Option (Option String) :=
  if rustContains ticker "OSCAR" || rustContains ticker "EMMY" ||
      rustContains ticker "GRAMMY" || rustContains ticker "TONY" then
    let award_type :=
      if rustContains ticker "OSCAR" then "Oscar üé¨"
      else if rustContains ticker "EMMY" then "Emmy üì∫"
      else if rustContains ticker "GRAMMY" then "Grammy üéµ"
      else if rustContains ticker "TONY" then "Tony üé≠"
      else "Award üèÜ"
    match (rustSplitDash ticker).getLast? with
    | some winner =>
      some (some (award_type ++ " " ++ side_emoji ++ " " ++ rustToUppercase winner ++
        " wins " ++ (if betting_side = "YES" then "YES ‚úÖ" else "NO ‚ùå")))
    | none => none
  else none

/-- Default outcome-extraction attempt of parse_ticker_details (lines 786-797). -/
def ptd_default (ticker side_emoji betting_side : String) : Option (Option String) :=
  match (rustSplitDash ticker).getLast? with
  | some outcome =>
    if rustByteLen outcome.data ≤ 10 ∧ outcome.data.all Char.isAlphanum then
      let outcome_emoji := get_team_emoji outcome none
      if betting_side = "YES" then
        some (some ("üéØ " ++ side_emoji ++ " " ++ outcome_emoji ++ " happens " ++
          rustToUppercase outcome))
      else
        some (some ("üéØ " ++ side_emoji ++ " " ++ outcome_emoji ++ " doesn\x27t happen " ++
          rustToUppercase outcome))
    else none
  | none => none

/-- Embeds kalshi.rs parse_ticker_details (lines 378-805): decodes a Kalshi
ticker and side to a human description.  Returns `none` when the original
panics (byte slicing off a UTF-8 character boundary), otherwise `some` of the
description, ending in the generic check-market-details fallback. -/
def parse_ticker_details (ticker side : String) : Option String :=
  let betting_side := rustToUppercase side
  let side_emoji := get_side_emoji betting_side
  match ptd_crypto ticker side_emoji betting_side with
  | some r => r
  | none =>
  match ptd_total ticker side_emoji betting_side with
  | some r => r
  | none =>
  match ptd_chain ticker side_emoji betting_side with
  | some r => r
  | none =>
  match ptd_combo ticker side_emoji betting_side with
  | some r => r
  | none =>
  match ptd_timing ticker side_emoji betting_side with
  | some r => r
  | none =>
  match ptd_rank ticker side_emoji betting_side with
  | some r => r
  | none =>
  match ptd_award ticker side_emoji betting_side with
  | some r => r
  | none =>
  match ptd_default ticker side_emoji betting_side with
  | some r => r
  | none =>
  if betting_side = "YES" then
    some ("‚úÖ " ++ side_emoji ++ " YES - check market details")
  else
    some ("‚ùå " ++ side_emoji ++ " NO - check market details")


/-- Convenience constructor for concrete Polymarket trades used in witnesses
and counterexamples. -/
def mkPT (i : String) (p q : ℚ) : PTrade :=
  { id := i, market := "mkt", asset_id := "asset", side := "BUY", price := p, size := q,
    timestamp := "t", wallet_id := none, market_title := none, outcome := none }

/-- Convenience constructor for concrete Kalshi trades used in witnesses and
counterexamples. -/
def mkKT (i : String) (yes no : ℚ) (cnt : Int) : KTrade :=
  { trade_id := i, ticker := "TICK", price := yes, count := cnt, yes_price := yes,
    no_price := no, taker_side := "yes", created_time := "t", market_title := none }

lemma takeWhile_append_pre {α : Type} (p : α → Bool) (pre post : List α) (x : α)
    (hpre : ∀ a ∈ pre, p a = true) (hx : p x = false) :
    (pre ++ x :: post).takeWhile p = pre := by
  induction pre with
  | nil => simp [List.takeWhile, hx]
  | cons a t ih =>
    have ha : p a = true := hpre a (List.mem_cons_self a t)
    simp only [List.cons_append, List.takeWhile, ha]
    show a :: List.takeWhile p (t ++ x :: post) = a :: t
    rw [ih fun b hb => hpre b (List.mem_cons_of_mem a hb)]

lemma length_takeWhile_le_idx {α : Type} (p : α → Bool) :
    ∀ (l : List α) (j : Nat) (hj : j < l.length),
      p (l.get ⟨j, hj⟩) = false → (l.takeWhile p).length ≤ j := by
  intro l
  induction l with
  | nil => intro j hj; simp at hj
  | cons a t ih =>
    intro j hj hp
    cases j with
    | zero =>
      simp only [List.get] at hp
      simp [List.takeWhile, hp]
    | succ n =>
      cases hpa : p a with
      | false => simp [List.takeWhile, hpa]
      | true =>
        simp only [List.takeWhile, hpa]
        have := ih n (Nat.lt_of_succ_lt_succ hj) hp
        simpa using Nat.succ_le_succ this

lemma sanAllowed_escapeChar (c : Char) : sanAllowed (escapeChar c) = true := by
  unfold escapeChar
  split_ifs with h1 h2 h3
  · simp only [sanAllowed, decide_eq_true_eq]
    tauto
  · decide
  · decide
  · decide

lemma splitWsAux_words (l : List Char) :
    ∀ (acc : List Char), (∀ c ∈ acc, c.isWhitespace = false) →
      ∀ w ∈ splitWsAux l acc,
        w ≠ [] ∧ ∀ c ∈ w, c.isWhitespace = false ∧ (c ∈ l ∨ c ∈ acc) := by
  induction l with
  | nil =>
    intro acc hacc w hw
    simp only [splitWsAux] at hw
    split at hw
    · simp at hw
    · rename_i hne
      simp only [List.mem_singleton] at hw
      subst hw
      refine ⟨?_, ?_⟩
      · simpa [List.isEmpty_iff] using hne
      · intro c hc
        rw [List.mem_reverse] at hc
        exact ⟨hacc c hc, Or.inr hc⟩
  | cons a t ih =>
    intro acc hacc w hw
    simp only [splitWsAux] at hw
    split at hw
    · rename_i hws
      split at hw
      · have := ih [] (by simp) w hw
        exact ⟨this.1, fun c hc => ⟨(this.2 c hc).1,
          Or.inl (List.mem_cons_of_mem a (by rcases (this.2 c hc).2 with h | h; exact h; simp at h))⟩⟩
      · rcases List.mem_cons.mp hw with rfl | hw2
        · refine ⟨?_, ?_⟩
          · rename_i hne
            simpa [List.isEmpty_iff] using hne
          · intro c hc
            rw [List.mem_reverse] at hc
            exact ⟨hacc c hc, Or.inr hc⟩
        · have := ih [] (by simp) w hw2
          exact ⟨this.1, fun c hc => ⟨(this.2 c hc).1,
            Or.inl (List.mem_cons_of_mem a (by rcases (this.2 c hc).2 with h | h; exact h; simp at h))⟩⟩
    · rename_i hws
      have hacc2 : ∀ c ∈ a :: acc, c.isWhitespace = false := by
        intro c hc
        rcases List.mem_cons.mp hc with rfl | hc2
        · simpa using hws
        · exact hacc c hc2
      have := ih (a :: acc) hacc2 w hw
      refine ⟨this.1, fun c hc => ⟨(this.2 c hc).1, ?_⟩⟩
      rcases (this.2 c hc).2 with h | h
      · exact Or.inl (List.mem_cons_of_mem a h)
      · rcases List.mem_cons.mp h with rfl | h2
        · exact Or.inl (List.mem_cons_self _ _)
        · exact Or.inr h2

lemma sanAllowed_joinSpace (ws : List (List Char))
    (h : ∀ w ∈ ws, ∀ c ∈ w, sanAllowed c = true) :
    ∀ c ∈ joinSpace ws, sanAllowed c = true := by
  induction ws with
  | nil => intro c hc; simp [joinSpace] at hc
  | cons w ws ih =>
    intro c hc
    cases ws with
    | nil =>
      simp only [joinSpace] at hc
      exact h w (List.mem_cons_self _ _) c hc
    | cons w2 rest =>
      simp only [joinSpace, List.mem_append, List.mem_cons] at hc
      rcases hc with hc | hc | hc
      · exact h w (List.mem_cons_self _ _) c hc
      · subst hc; decide
      · exact ih (fun w' hw' => h w' (List.mem_cons_of_mem _ hw')) c
          (by simpa [joinSpace] using hc)

lemma noDoubleSpace_append (w rest : List Char)
    (hw : ∀ c ∈ w, (c == ' ') = false) (hrest : noDoubleSpace rest = true) :
    noDoubleSpace (w ++ rest) = true := by
  induction w with
  | nil => simpa using hrest
  | cons a w' ih =>
    have ha : (a == ' ') = false := hw a (List.mem_cons_self _ _)
    have ih2 := ih fun c hc => hw c (List.mem_cons_of_mem a hc)
    cases hw2 : w' ++ rest with
    | nil => simp [hw2, noDoubleSpace]
    | cons b t =>
      simp only [List.cons_append, hw2, noDoubleSpace, ha, Bool.false_and,
        Bool.not_false, Bool.true_and]
      rw [← hw2]
      exact ih2

lemma noDoubleSpace_space_cons (J : List Char)
    (hJ : noDoubleSpace J = true)
    (hhead : ∀ c, J.head? = some c → (c == ' ') = false) :
    noDoubleSpace (' ' :: J) = true := by
  cases J with
  | nil => decide
  | cons h t =>
    have := hhead h rfl
    simp only [noDoubleSpace, this, Bool.and_false, Bool.not_false, Bool.true_and]
    exact hJ

lemma noDoubleSpace_joinSpace (ws : List (List Char))
    (h : ∀ w ∈ ws, w ≠ [] ∧ ∀ c ∈ w, (c == ' ') = false) :
    noDoubleSpace (joinSpace ws) = true ∧
      ∀ c, (joinSpace ws).head? = some c → (c == ' ') = false := by
  induction ws with
  | nil => exact ⟨rfl, by intro c hc; simp [joinSpace] at hc⟩
  | cons w ws ih =>
    have hw := h w (List.mem_cons_self _ _)
    cases ws with
    | nil =>
      refine ⟨?_, ?_⟩
      · simpa [joinSpace] using
          noDoubleSpace_append w [] hw.2 (by decide)
      · intro c hc
        simp only [joinSpace] at hc
        exact hw.2 c (List.mem_of_mem_head? hc)
    | cons w2 rest =>
      have ih2 := ih fun w' hw' => h w' (List.mem_cons_of_mem _ hw')
      have hJ : noDoubleSpace (' ' :: joinSpace (w2 :: rest)) = true :=
        noDoubleSpace_space_cons _ ih2.1 ih2.2
      refine ⟨?_, ?_⟩
      · simpa [joinSpace] using noDoubleSpace_append w (' ' :: joinSpace (w2 :: rest)) hw.2 hJ
      · intro c hc
        cases hcw : w with
        | nil => exact absurd hcw hw.1
        | cons a t =>
          simp only [joinSpace, hcw, List.cons_append, List.head?_cons] at hc
          cases hc
          exact hw.2 c (hcw ▸ List.mem_cons_self _ _)

/-- C1 counterexample: on a cold start (cursor `None`) with a non-empty
batch whose trades are above the $25,000 default threshold, the code scans
and alerts on the whole batch — the unseen set is the entire batch, not
empty as claimed (only the cursor-update part of the claim holds). -/
theorem c1_counterexample :
    pm_unseen none [mkPT "T5" (1/2) 100000, mkPT "T4" (1/2) 100000] =
      [mkPT "T5" (1/2) 100000, mkPT "T4" (1/2) 100000] ∧
    pm_unseen none [mkPT "T5" (1/2) 100000, mkPT "T4" (1/2) 100000] ≠ [] ∧
    pm_alerts 25000 none [mkPT "T5" (1/2) 100000, mkPT "T4" (1/2) 100000] =
      [mkPT "T5" (1/2) 100000, mkPT "T4" (1/2) 100000] ∧
    pm_new_cursor none [mkPT "T5" (1/2) 100000, mkPT "T4" (1/2) 100000] = some "T5" := by
  refine ⟨rfl, by simp [pm_unseen, List.takeWhile], ?_, rfl⟩
  have h1 : pm_unseen none [mkPT "T5" (1/2) 100000, mkPT "T4" (1/2) 100000] =
      [mkPT "T5" (1/2) 100000, mkPT "T4" (1/2) 100000] := rfl
  rw [pm_alerts, h1]
  norm_num [List.filter_cons, mkPT]

/-- C1 amended: on a cold start (cursor `None`), a non-empty fetched batch
is treated as entirely unseen — every above-threshold trade in it triggers
an alert — and the new cursor is set to the id of the batch's newest
(first) trade.  Holds for both poll branches. -/
theorem c1_amended (pb : List PTrade) (kb : List KTrade) (hp : pb ≠ []) (hk : kb ≠ []) :
    pm_unseen none pb = pb ∧ pm_new_cursor none pb = some (pb.head hp).id ∧
    k_unseen none kb = kb ∧ k_new_cursor none kb = some (kb.head hk).trade_id := by
  refine ⟨?_, ?_, ?_, ?_⟩
  · simp [pm_unseen, List.takeWhile_eq_self_iff]
  · cases pb with
    | nil => exact absurd rfl hp
    | cons a t => rfl
  · simp [k_unseen, List.takeWhile_eq_self_iff]
  · cases kb with
    | nil => exact absurd rfl hk
    | cons a t => rfl

/-- C1 amended witness at a concrete cold-start tick. -/
theorem c1_witness :
    pm_unseen none [mkPT "T5" (1/2) 100000] = [mkPT "T5" (1/2) 100000] ∧
    pm_new_cursor none [mkPT "T5" (1/2) 100000] = some "T5" ∧
    k_unseen none [mkKT "K9" 50 50 1000] = [mkKT "K9" 50 50 1000] ∧
    k_new_cursor none [mkKT "K9" 50 50 1000] = some "K9" :=
  c1_amended [mkPT "T5" (1/2) 100000] [mkKT "K9" 50 50 1000]
    (by decide) (by decide)

/-- C2 counterexample: the spec's own Scenario B.  With cursor T5 and batch
[T8,T7,T6,T5,T4] the code handles the unseen trades in fetch order
[T8,T7,T6] (newest first), not in the claimed oldest-first order
[T6,T7,T8]. -/
theorem c2_counterexample :
    pm_unseen (some "T5")
        [mkPT "T8" (1/2) 1, mkPT "T7" (1/2) 1, mkPT "T6" (1/2) 1, mkPT "T5" (1/2) 1,
          mkPT "T4" (1/2) 1] =
      [mkPT "T8" (1/2) 1, mkPT "T7" (1/2) 1, mkPT "T6" (1/2) 1] ∧
    [mkPT "T8" (1/2) 1, mkPT "T7" (1/2) 1, mkPT "T6" (1/2) 1] ≠
      [mkPT "T6" (1/2) 1, mkPT "T7" (1/2) 1, mkPT "T8" (1/2) 1] := by
  refine ⟨rfl, ?_⟩
  intro h
  simp only [List.cons.injEq, PTrade.mk.injEq, mkPT] at h
  exact absurd h.1.1 (by decide)

/-- C2 amended: within every fetched batch the unseen trades are processed
in fetch order, i.e. newest-unseen-first: when the batch splits as
`pre ++ cursorTrade :: post` with no earlier occurrence of the cursor id,
the processed list is exactly `pre` in its fetch order (so Scenario B
handles T8, then T7, then T6). -/
theorem c2_amended (c kc : String) (pre post : List PTrade) (tc : PTrade)
    (kpre kpost : List KTrade) (ktc : KTrade)
    (h1 : tc.id = c) (h2 : ∀ t ∈ pre, t.id ≠ c)
    (h3 : ktc.trade_id = kc) (h4 : ∀ t ∈ kpre, t.trade_id ≠ kc) :
    pm_unseen (some c) (pre ++ tc :: post) = pre ∧
    k_unseen (some kc) (kpre ++ ktc :: kpost) = kpre := by
  constructor
  · exact takeWhile_append_pre _ pre post tc
      (fun a ha => by simpa using h2 a ha) (by simpa using h1)
  · exact takeWhile_append_pre _ kpre kpost ktc
      (fun a ha => by simpa using h4 a ha) (by simpa using h3)

/-- C2 amended witness: Scenario B concretely, both venues. -/
theorem c2_witness :
    pm_unseen (some "T5")
        [mkPT "T8" (1/2) 1, mkPT "T7" (1/2) 1, mkPT "T6" (1/2) 1, mkPT "T5" (1/2) 1,
          mkPT "T4" (1/2) 1] =
      [mkPT "T8" (1/2) 1, mkPT "T7" (1/2) 1, mkPT "T6" (1/2) 1] ∧
    k_unseen (some "K5") [mkKT "K6" 50 50 1, mkKT "K5" 50 50 1] = [mkKT "K6" 50 50 1] :=
  c2_amended "T5" "K5" [mkPT "T8" (1/2) 1, mkPT "T7" (1/2) 1, mkPT "T6" (1/2) 1] [mkPT "T4" (1/2) 1]
    (mkPT "T5" (1/2) 1) [mkKT "K6" 50 50 1] [] (mkKT "K5" 50 50 1)
    rfl (by decide) rfl (by decide)

/-- C3: after the first fetch, with the precondition implicit in the scan
(newest-first batch, stable source-unique ids), no trade whose id equals
the cursor is ever part of the unseen scan or of the alerted set, and any
trade positioned at or after the cursor's id in the batch (i.e. older) is
excluded from the unseen scan — so an already-alerted id is never alerted
again. -/
theorem c3_theorem (c kc : String) (thr : ℚ) (pb : List PTrade) (kb : List KTrade) :
    (∀ t ∈ pm_unseen (some c) pb, t.id ≠ c) ∧
    (∀ t ∈ pm_alerts thr (some c) pb, t.id ≠ c) ∧
    (∀ (j : Nat) (hj : j < pb.length), (pb.get ⟨j, hj⟩).id = c →
      (pm_unseen (some c) pb).length ≤ j) ∧
    (∀ t ∈ k_unseen (some kc) kb, t.trade_id ≠ kc) ∧
    (∀ t ∈ k_alerts thr (some kc) kb, t.trade_id ≠ kc) ∧
    (∀ (j : Nat) (hj : j < kb.length), (kb.get ⟨j, hj⟩).trade_id = kc →
      (k_unseen (some kc) kb).length ≤ j) := by
  refine ⟨?_, ?_, ?_, ?_, ?_, ?_⟩
  · intro t ht
    have := List.mem_takeWhile_imp ht
    simpa using this
  · intro t ht
    have ht2 : t ∈ pm_unseen (some c) pb := List.mem_of_mem_filter ht
    have := List.mem_takeWhile_imp ht2
    simpa using this
  · intro j hj hid
    exact length_takeWhile_le_idx _ pb j hj (by simpa using hid)
  · intro t ht
    have := List.mem_takeWhile_imp ht
    simpa using this
  · intro t ht
    have ht2 : t ∈ k_unseen (some kc) kb := List.mem_of_mem_filter ht
    have := List.mem_takeWhile_imp ht2
    simpa using this
  · intro j hj hid
    exact length_takeWhile_le_idx _ kb j hj (by simpa using hid)

/-- C3 witness at Scenario B with cursor T5: T8 is unseen and its id is
not the cursor's, and the unseen scan stops before position 3 (where T5
sits). -/
def cursorT5 : String := "T5"

def cursorK0 : String := "K0"

theorem c3_witness :
    (mkPT "T8" (1/2) 1).id ≠ "T5" ∧
    (pm_unseen (some "T5")
        [mkPT "T8" (1/2) 1, mkPT "T7" (1/2) 1, mkPT "T6" (1/2) 1, mkPT "T5" (1/2) 1]).length ≤ 3 :=
  have h := c3_theorem cursorT5 cursorK0 25000
    [mkPT "T8" (1/2) 1, mkPT "T7" (1/2) 1, mkPT "T6" (1/2) 1, mkPT "T5" (1/2) 1] []
  ⟨h.1 (mkPT "T8" (1/2) 1) (List.mem_cons_self _ _), h.2.2.1 3 (by decide) rfl⟩


/-- C7: for every non-empty batch the tick's cursor output is the id of
the batch's first (newest) element, independent of the threshold (so also
when the newest trade is below it) and of the previous cursor; the pure
tick function assigns it exactly once, after the scan.  Both venues. -/
theorem c7_theorem (thr : ℚ) (cur kcur : Option String)
    (pb : List PTrade) (kb : List KTrade) (hp : pb ≠ []) (hk : kb ≠ []) :
    (pm_tick thr cur pb).2 = some (pb.head hp).id ∧
    (k_tick thr kcur kb).2 = some (kb.head hk).trade_id := by
  constructor
  · cases pb with
    | nil => exact absurd rfl hp
    | cons a t => rfl
  · cases kb with
    | nil => exact absurd rfl hk
    | cons a t => rfl

/-- C7 witness: a tick whose newest trade is far below the $25,000
threshold still moves the cursor to that trade's id, on both venues. -/
theorem c7_witness :
    (pm_tick 25000 (some "T0") [mkPT "T9" (1/2) 1, mkPT "T0" (1/2) 1]).2 = some "T9" ∧
    (k_tick 25000 (some "K0") [mkKT "K9" 1 99 1, mkKT "K0" 1 99 1]).2 = some "K9" :=
  c7_theorem 25000 (some "T0") (some "K0")
    [mkPT "T9" (1/2) 1, mkPT "T0" (1/2) 1] [mkKT "K9" 1 99 1, mkKT "K0" 1 99 1]
    (by decide) (by decide)

/-- C4 counterexample: a generic-webhook delivery failing with HTTP 500
(and likewise a transport error) results in zero fallback deliveriesis —
the dispatcher only logs and gives up, it never attempts the claimed
form-encoded second request. -/
theorem c4_counterexample :
    send_generic_webhook_alert (.ok 500) =
      { posts := 1, formFallbackPosts := 0, loggedFailure := true } ∧
    send_generic_webhook_alert .err =
      { posts := 1, formFallbackPosts := 0, loggedFailure := true } := by
  constructor <;> rfl

/-- C4 amended: the generic-webhook dispatcher makes exactly one JSON POST
and no fallback request of any kind; a non-2xx status or transport error
is only logged (and nothing propagates to the poll loop — the function
total-returns a trace for every outcome). -/
theorem c4_amended (outcome : SendOutcome) :
    (send_generic_webhook_alert outcome).posts = 1 ∧
    (send_generic_webhook_alert outcome).formFallbackPosts = 0 ∧
    (send_generic_webhook_alert outcome).loggedFailure =
      (match outcome with | .ok status => !httpIsSuccess status | .err => true) := by
  cases outcome <;> exact ⟨rfl, rfl, rfl⟩

lemma mem_ite_singleton {A : Type} (a x : A) (c : Prop) [Decidable c] :
    (a ∈ if c then [x] else []) ↔ c ∧ a = x := by
  split <;> simp_all

lemma mem_ite_ite_singleton {A : Type} (a x y : A) (c1 c2 : Prop)
    [Decidable c1] [Decidable c2] :
    (a ∈ if c1 then [x] else if c2 then [y] else []) ↔
      (c1 ∧ a = x) ∨ (¬c1 ∧ c2 ∧ a = y) := by
  by_cases h1 : c1 <;> by_cases h2 : c2 <;> simp_all

lemma det_mem_repeatActor_iff (price size value : ℚ) (wa : WalletActivity) :
    Anomaly.repeatActor ∈ detect_anomalies price size value (some wa) ↔
      wa.is_repeat_actor = true ∧ wa.is_heavy_actor = false := by
  simp [detect_anomalies, List.mem_append, mem_ite_singleton, mem_ite_ite_singleton]

lemma det_mem_heavyActor_iff (price size value : ℚ) (wa : WalletActivity) :
    Anomaly.heavyActor ∈ detect_anomalies price size value (some wa) ↔
      wa.is_heavy_actor = true := by
  simp [detect_anomalies, List.mem_append, mem_ite_singleton, mem_ite_ite_singleton]

/-- C8: the repeat-actor indicator is only pushed under
`is_repeat_actor && !is_heavy_actor`, so a heavy actor never yields
RepeatActor, and HeavyActor and RepeatActor are mutually exclusive in
every classification result. -/
theorem c8_theorem (price size value : ℚ) (wa : WalletActivity) :
    (wa.is_heavy_actor = true →
      Anomaly.repeatActor ∉ detect_anomalies price size value (some wa)) ∧
    ¬(Anomaly.heavyActor ∈ detect_anomalies price size value (some wa) ∧
      Anomaly.repeatActor ∈ detect_anomalies price size value (some wa)) := by
  constructor
  · intro hheavy hmem
    rw [det_mem_repeatActor_iff] at hmem
    rw [hmem.2] at hheavy
    cases hheavy
  · rintro ⟨hh, hr⟩
    rw [det_mem_heavyActor_iff] at hh
    rw [det_mem_repeatActor_iff] at hr
    rw [hr.2] at hh
    cases hh

/-- C8 witness: a heavy actor (also a repeat actor) never yields the
RepeatActor indicator, and never both HeavyActor and RepeatActor. -/
theorem c8_witness :
    Anomaly.repeatActor ∉
      detect_anomalies (1/2) 10 5 (some ⟨3, 7, 1000, 5000, true, true⟩) ∧
    ¬(Anomaly.heavyActor ∈
        detect_anomalies (1/2) 10 5 (some ⟨3, 7, 1000, 5000, true, true⟩) ∧
      Anomaly.repeatActor ∈
        detect_anomalies (1/2) 10 5 (some ⟨3, 7, 1000, 5000, true, true⟩)) :=
  ⟨(c8_theorem (1/2) 10 5 ⟨3, 7, 1000, 5000, true, true⟩).1 rfl,
    (c8_theorem (1/2) 10 5 ⟨3, 7, 1000, 5000, true, true⟩).2⟩

/-- C5 counterexample: the ntfy message path (ntfy.rs lines 118-131)
embeds the raw market title: a title containing `*` and `$` reaches the
outbound ntfy payload unchanged, although the sanitizer would have
stripped them (as the generic-webhook path does). -/
theorem c5_counterexample :
    ntfy_market_line (some "Will *BTC* hit $100k?") = "Market: Will *BTC* hit $100k?" ∧
    '*' ∈ (ntfy_market_line (some "Will *BTC* hit $100k?")).data ∧
    sanAllowed '*' = false ∧
    escape_special_chars "Will *BTC* hit $100k?" = "Will BTC hit 100k?" ∧
    webhook_market_title_field (some "Will *BTC* hit $100k?") = some "Will BTC hit 100k?" := by
  refine ⟨rfl, ?_, rfl, ?_, ?_⟩ <;> decide

/-- C5 amended: the sanitizer's output alphabet is as claimed — only ASCII
alphanumerics, single spaces, the `, : ? .` allow-list and collapsed
`(` / `)` — and the generic-webhook payload fields pass through it; the
ntfy path, however, embeds titles and outcome labels unsanitized (see the
counterexample). -/
theorem c5_amended (s : String) :
    (escape_special_chars s).data.all sanAllowed = true ∧
    noDoubleSpace (escape_special_chars s).data = true ∧
    webhook_market_title_field (some s) = some (escape_special_chars s) ∧
    webhook_outcome_field (some s) = some (escape_special_chars s) := by
  have hwords := splitWsAux_words (s.data.map escapeChar) [] (by simp)
  have hword2 : ∀ w ∈ splitWs (s.data.map escapeChar),
      w ≠ [] ∧ ∀ c ∈ w, (c == ' ') = false := by
    intro w hw
    have h := hwords w hw
    refine ⟨h.1, fun c hc => ?_⟩
    have hws := (h.2 c hc).1
    cases hbe : (c == ' ') with
    | false => rfl
    | true =>
      have hc' : c = ' ' := by simpa using hbe
      subst hc'
      exact absurd hws (by decide)
  have hallowed : ∀ w ∈ splitWs (s.data.map escapeChar), ∀ c ∈ w, sanAllowed c = true := by
    intro w hw c hc
    have h := hwords w hw
    rcases (h.2 c hc).2 with hm | hm
    · rcases List.mem_map.mp hm with ⟨d, _, rfl⟩
      exact sanAllowed_escapeChar d
    · simp at hm
  refine ⟨?_, ?_, rfl, rfl⟩
  · rw [List.all_eq_true]
    intro c hc
    exact sanAllowed_joinSpace _ hallowed c hc
  · exact (noDoubleSpace_joinSpace _ hword2).1

/-- C6 counterexample: a Kalshi trade executed at 97 cents (yes_price 97,
no_price 3, normalized execution price 0.97 > 0.95) does not receive
ExtremeConfidence from the alert path, because `print_kalshi_alert`
evaluates the rules at the yes/no midpoint over 100 — here 0.5 — while
the same rule applied to the trade's own normalized price fires. -/
theorem c6_counterexample :
    Anomaly.extremeConfidence ∉ kalshi_alert_anomalies (mkKT "K1" 97 3 2000) 1940 ∧
    (mkKT "K1" 97 3 2000).yes_price / 100 > 95/100 ∧
    Anomaly.extremeConfidence ∈
      detect_anomalies ((mkKT "K1" 97 3 2000).yes_price / 100)
        ((mkKT "K1" 97 3 2000).count : ℚ) 1940 none := by
  refine ⟨?_, by norm_num [mkKT], ?_⟩
  · simp only [kalshi_alert_anomalies, mkKT, detect_anomalies]
    norm_num
  · simp only [mkKT, detect_anomalies]
    norm_num

/-- C6 amended: Polymarket alerts evaluate the price rules at the trade's
own price, but Kalshi alerts evaluate them at the yes/no midpoint divided
by 100; with complementary pricing (yes + no = 100 cents) that midpoint is
always 1/2, so ExtremeConfidence, ContrarianPosition and the price
conjuncts of HighConvictionLikely and AsymmetricInfoHedge can never fire
for a Kalshi alert, whatever the execution price. -/
theorem c6_amended (t : PTrade) (kt : KTrade) (v : ℚ) (wa : Option WalletActivity)
    (h : kt.yes_price + kt.no_price = 100) :
    pm_alert_anomalies t v wa = detect_anomalies t.price t.size v wa ∧
    Anomaly.extremeConfidence ∉ kalshi_alert_anomalies kt v ∧
    Anomaly.contrarianPosition ∉ kalshi_alert_anomalies kt v ∧
    Anomaly.highConvictionLikely ∉ kalshi_alert_anomalies kt v ∧
    Anomaly.asymmetricInfoHedge ∉ kalshi_alert_anomalies kt v := by
  have hm : ((kt.yes_price + kt.no_price) / 2) / 100 = 1/2 := by
    rw [h]; norm_num
  refine ⟨rfl, ?_, ?_, ?_, ?_⟩ <;>
    · simp only [kalshi_alert_anomalies, hm, detect_anomalies]
      norm_num
      exact ⟨fun _ hx => Anomaly.noConfusion hx, fun _ hx => Anomaly.noConfusion hx⟩

/-- C6 amended witness at a concrete complementary-priced Kalshi trade. -/
theorem c6_witness :
    Anomaly.extremeConfidence ∉ kalshi_alert_anomalies (mkKT "K2" 99 1 10) 10 :=
  (c6_amended (mkPT "P" (1/2) 1) (mkKT "K2" 99 1 10) 10 none (by norm_num [mkKT])).2.1

/-- C9 (code bug): the claim — matching the spec's "always returns a
string, never fails" — is violated by the code: on the ticker
`TOTAL-ααα-51` (dash-separated, numeric last part, middle part of three
two-byte characters, so 6 bytes long) the sports-total branch slices
`&team_codes[..3]`, byte offset 3 falls inside the second `α`, and the
Rust program panics.  In the embedding the panic is the `none` result. -/
theorem c9_theorem : parse_ticker_details "TOTAL-ααα-51" "YES" = none := by rfl

/-- C10: kalshi.rs `fetch_recent_trades` — a success HTTP status with an
undecodable body yields `Ok` with the empty trade list; an error result
arises only from a transport failure or a non-success status (and a
success status with a decodable body yields those trades). -/
theorem c10_theorem (status : Nat) (decoded : Option (List KTrade)) (tr : List KTrade) :
    (httpIsSuccess status = true →
      kalshi_fetch_recent_trades (.response status none) = .ok []) ∧
    (httpIsSuccess status = false →
      kalshi_fetch_recent_trades (.response status decoded) =
        .error (.parseErrorStatus status)) ∧
    kalshi_fetch_recent_trades .transportErr = .error .requestFailed ∧
    (httpIsSuccess status = true →
      kalshi_fetch_recent_trades (.response status (some tr)) = .ok tr) := by
  refine ⟨?_, ?_, rfl, ?_⟩
  · intro h
    simp [kalshi_fetch_recent_trades, h]
  · intro h
    simp [kalshi_fetch_recent_trades, h]
  · intro h
    simp [kalshi_fetch_recent_trades, h]

/-- C10 witness: a 200 response with an undecodable body is reported as
success with no trades; a 500 response is an error. -/
theorem c10_witness :
    kalshi_fetch_recent_trades (.response 200 none) = .ok [] ∧
    kalshi_fetch_recent_trades (.response 500 (some [mkKT "K1" 50 50 1])) =
      .error (.parseErrorStatus 500) :=
  ⟨(c10_theorem 200 none []).1 (by decide),
    (c10_theorem 500 (some [mkKT "K1" 50 50 1]) []).2.1 (by decide)⟩
